import Mathlib

/-!
Verification of the CivicSaathi SLA escalation engine and the admin SLA
timer display.

The SLA engine (evaluator, resolver, target selector, recorder, driver) is
described by the specification and by the repository's documentation
(`IMPLEMENTATION_SUMMARY.md`, `ESCALATION_GUIDE.md`); its Python source
(`civic_saathi/management/commands/auto_escalate.py` and friends) is not
part of the source tree available here, so those components are modelled
from the specification, as marked on each definition.  The admin complaint
detail page (`frontend/pages/admin/complaints/[id].js`) is real source and
the display definitions below are translated from it directly.

Time is modelled as rational hours (the implementation computes
`total_seconds() / 3600` with decimal precision).
-/

namespace CivicSaathi

/-- Modelled from the spec: complaint status enum.  The relevant subset of
the state machine of section 4.7; the terminal set is
resolved/completed/rejected/declined (glossary, "terminal status"). -/
inductive Status
  | submitted
  | assigned
  | inProgress
  | pendingReassignment
  | resolved
  | completed
  | rejected
  | declined
deriving DecidableEq, Repr

/-- Modelled from the spec: a status is terminal iff it is one of
resolved/completed/rejected/declined. -/
def Status.isTerminal : Status → Bool
  | .resolved => true
  | .completed => true
  | .rejected => true
  | .declined => true
  | _ => false

/-- Modelled from the spec: priority as a three-valued enum
(NORMAL/HIGH/CRITICAL), per design note "Bounded priority". -/
inductive Priority
  | normal
  | high
  | critical
deriving DecidableEq, Repr

/-- Modelled from the spec: raise priority by one level capped at CRITICAL. -/
def bumpPriority : Priority → Priority
  | .normal => .high
  | .high => .critical
  | .critical => .critical

/-- Modelled from the spec: a ground worker (id and display name). -/
structure Worker where
  id : Nat
  name : String
deriving DecidableEq, Repr

/-- Modelled from the spec: an officer (id, display name, department). -/
structure Officer where
  id : Nat
  name : String
  departmentId : Nat
deriving DecidableEq, Repr

/-- Modelled from the spec: the Complaint record of section 3 (identifier,
category reference, status, priority, creation timestamp, current assignee
worker and/or officer both nullable, escalation count, last-warned
timestamp, department reference), plus the timestamp at which a terminal
status was reached (the evaluator's timer freezes there) and the
last-escalated timestamp owned by the engine (section 6). -/
structure Complaint where
  id : Nat
  category : Nat
  departmentId : Nat
  status : Status
  priority : Priority
  createdAt : ℚ
  terminalAt : Option ℚ
  currentWorker : Option Worker
  currentOfficer : Option Officer
  escalationCount : Nat
  lastWarnedAt : Option ℚ
  lastEscalatedAt : Option ℚ
deriving DecidableEq, Repr

/-- Modelled from the spec: per-category SLA policy (section 4.1). -/
structure SLAPolicy where
  resolutionHours : ℚ
  escalationHours : ℚ
deriving DecidableEq, Repr

/-- Modelled from the spec: the evaluator's timer state.  CRITICAL is a
sub-case of the WARNING band ("purely for notification urgency, not for
branching logic"), so it is carried as a Boolean flag on the result rather
than as a fourth non-terminal state. -/
inductive TimerState
  | terminal
  | onTrack
  | warning
  | overdue
deriving DecidableEq, Repr

/-- Modelled from the spec: result of `evaluate` (section 4.2). -/
structure EvalResult where
  elapsedHours : ℚ
  state : TimerState
  critical : Bool
deriving DecidableEq, Repr

/-- Modelled from the spec: the tighter sub-threshold (2h) below which a
WARNING is flagged CRITICAL. -/
def criticalSubThreshold : ℚ := 2

/-- Modelled from the spec: `evaluate(complaint, now, policy,
warningThreshold)` of section 4.2.  Terminal complaints yield TERMINAL with
the elapsed time frozen at the moment the terminal status was reached; for
non-terminal complaints `elapsed = now - createdAt`, OVERDUE when
`elapsed >= escalationHours`, WARNING when the remaining time is at most
`warningThreshold`, ON_TRACK otherwise. -/
def evaluate (c : Complaint) (now : ℚ) (p : SLAPolicy) (thr : ℚ) : EvalResult :=
  if c.status.isTerminal then
    { elapsedHours := c.terminalAt.getD now - c.createdAt
      state := .terminal
      critical := false }
  else
    let elapsed := now - c.createdAt
    if p.escalationHours ≤ elapsed then
      { elapsedHours := elapsed, state := .overdue, critical := false }
    else if p.escalationHours - elapsed ≤ thr then
      { elapsedHours := elapsed
        state := .warning
        critical := decide (p.escalationHours - elapsed ≤ criticalSubThreshold) }
    else
      { elapsedHours := elapsed, state := .onTrack, critical := false }

/-- Exhaustive characterisation of `evaluate` on non-terminal complaints:
the reported elapsed time, and each of the three non-terminal states as an
inequality on `now - createdAt`. -/
theorem evaluate_classify (c : Complaint) (p : SLAPolicy) (thr now : ℚ)
    (h : c.status.isTerminal = false) :
    (evaluate c now p thr).elapsedHours = now - c.createdAt
    ∧ ((evaluate c now p thr).state = .overdue ↔
        p.escalationHours ≤ now - c.createdAt)
    ∧ ((evaluate c now p thr).state = .warning ↔
        (0 < p.escalationHours - (now - c.createdAt)
          ∧ p.escalationHours - (now - c.createdAt) ≤ thr))
    ∧ ((evaluate c now p thr).state = .onTrack ↔
        (now - c.createdAt < p.escalationHours
          ∧ thr < p.escalationHours - (now - c.createdAt))) := by
  unfold evaluate
  rw [h]
  simp only [Bool.false_eq_true, if_false]
  by_cases h1 : p.escalationHours ≤ now - c.createdAt
  · rw [if_pos h1]
    dsimp only
    refine ⟨rfl, iff_of_true rfl h1, ?_, ?_⟩
    · constructor
      · intro h2
        exact absurd h2 (by decide)
      · intro ⟨h2, _⟩
        linarith
    · constructor
      · intro h2
        exact absurd h2 (by decide)
      · intro ⟨h2, _⟩
        linarith
  · rw [if_neg h1]
    by_cases h2 : p.escalationHours - (now - c.createdAt) ≤ thr
    · rw [if_pos h2]
      dsimp only
      refine ⟨rfl, ?_, iff_of_true rfl ⟨by linarith, h2⟩, ?_⟩
      · constructor
        · intro h3
          exact absurd h3 (by decide)
        · intro h3
          exact absurd h3 h1
      · constructor
        · intro h3
          exact absurd h3 (by decide)
        · intro ⟨_, h3⟩
          linarith
    · rw [if_neg h2]
      dsimp only
      refine ⟨rfl, ?_, ?_, iff_of_true rfl ⟨by linarith, by linarith⟩⟩
      · constructor
        · intro h3
          exact absurd h3 (by decide)
        · intro h3
          exact absurd h3 h1
      · constructor
        · intro h3
          exact absurd h3 (by decide)
        · intro ⟨_, h3⟩
          exact absurd h3 h2

/-- Terminal complaints evaluate to the TERMINAL state with the critical
flag off, whatever the clock says. -/
theorem evaluate_terminal (c : Complaint) (p : SLAPolicy) (thr now : ℚ)
    (h : c.status.isTerminal = true) :
    evaluate c now p thr =
      { elapsedHours := c.terminalAt.getD now - c.createdAt
        state := .terminal
        critical := false } := by
  unfold evaluate
  rw [h]
  simp

/-- C1: for every non-terminal complaint with policy `escalationHours = H`
and creation time `T`, `evaluate` computes `elapsedHours` as `now - T`,
returns OVERDUE exactly when `elapsed ≥ H` (at `now = T + H` the state is
OVERDUE; strictly before `T + H` it is not), returns WARNING exactly when
`H - elapsed` is positive and at most `warningThreshold`, and ON_TRACK in
the remaining (non-overdue, non-warning) cases. -/
theorem sla_evaluator_classification (c : Complaint) (p : SLAPolicy) (thr now : ℚ)
    (h : c.status.isTerminal = false) :
    (evaluate c now p thr).elapsedHours = now - c.createdAt
    ∧ ((evaluate c now p thr).state = .overdue ↔
        p.escalationHours ≤ now - c.createdAt)
    ∧ (evaluate c (c.createdAt + p.escalationHours) p thr).state = .overdue
    ∧ (now < c.createdAt + p.escalationHours →
        (evaluate c now p thr).state ≠ .overdue)
    ∧ ((evaluate c now p thr).state = .warning ↔
        (0 < p.escalationHours - (now - c.createdAt)
          ∧ p.escalationHours - (now - c.createdAt) ≤ thr))
    ∧ ((evaluate c now p thr).state = .onTrack ↔
        (now - c.createdAt < p.escalationHours
          ∧ thr < p.escalationHours - (now - c.createdAt))) := by
  obtain ⟨he, ho, hw, ht⟩ := evaluate_classify c p thr now h
  refine ⟨he, ho, ?_, ?_, hw, ht⟩
  · exact (evaluate_classify c p thr (c.createdAt + p.escalationHours) h).2.1.mpr
      (by linarith)
  · intro hlt hstate
    have := ho.mp hstate
    linarith

/-- Witness for C1 at concrete inputs: a non-terminal complaint created at
time 0 with a 12-hour escalation deadline is OVERDUE at hour 12 and (with a
2-hour warning threshold) WARNING at hour 11. -/
def complaintA : Complaint :=
  { id := 1, category := 0, departmentId := 0, status := .assigned
    priority := .normal, createdAt := 0, terminalAt := none
    currentWorker := none, currentOfficer := none, escalationCount := 0
    lastWarnedAt := none, lastEscalatedAt := none }

/-- The pothole policy of the documentation: 24h resolution, 12h escalation. -/
def policyA : SLAPolicy := { resolutionHours := 24, escalationHours := 12 }

theorem sla_evaluator_classification_witness :
    complaintA.status.isTerminal = false
    ∧ (evaluate complaintA 12 policyA 2).state = .overdue
    ∧ (evaluate complaintA 11 policyA 2).state = .warning := by
  refine ⟨rfl, ?_, ?_⟩
  · exact (sla_evaluator_classification complaintA policyA 2 12 rfl).2.1.mpr
      (by norm_num [policyA, complaintA])
  · exact (sla_evaluator_classification complaintA policyA 2 11 rfl).2.2.2.2.1.mpr
      (by constructor <;> norm_num [policyA, complaintA])

/-- C3: a complaint in a terminal status (resolved/completed/rejected/
declined) always evaluates to TERMINAL — never WARNING, CRITICAL or
OVERDUE, however much time has passed — and the reported elapsed time is
frozen at the value it had when the terminal status was reached. -/
theorem terminal_complaints_never_escalate (c : Complaint) (p : SLAPolicy)
    (thr now now' : ℚ) (h : c.status.isTerminal = true) :
    (evaluate c now p thr).state = .terminal
    ∧ (evaluate c now p thr).state ≠ .warning
    ∧ (evaluate c now p thr).critical = false
    ∧ (evaluate c now p thr).state ≠ .overdue
    ∧ (∀ t, c.terminalAt = some t →
        evaluate c now p thr = evaluate c now' p thr
          ∧ (evaluate c now p thr).elapsedHours = t - c.createdAt) := by
  rw [evaluate_terminal c p thr now h, evaluate_terminal c p thr now' h]
  dsimp only
  refine ⟨rfl, by decide, rfl, by decide, ?_⟩
  intro t ht
  rw [ht]
  exact ⟨rfl, rfl⟩

/-- Witness for C3, Scenario C of the spec: a complaint resolved at hour 5
under a 12-hour escalation policy, evaluated at hour 20, is TERMINAL with
its elapsed time frozen at 5 hours. -/
def complaintResolved : Complaint :=
  { id := 2, category := 0, departmentId := 0, status := .resolved
    priority := .normal, createdAt := 0, terminalAt := some 5
    currentWorker := none, currentOfficer := none, escalationCount := 0
    lastWarnedAt := none, lastEscalatedAt := none }

theorem terminal_complaints_never_escalate_witness :
    complaintResolved.status.isTerminal = true
    ∧ (evaluate complaintResolved 20 policyA 2).state = .terminal
    ∧ evaluate complaintResolved 20 policyA 2 = evaluate complaintResolved 200 policyA 2
    ∧ (evaluate complaintResolved 20 policyA 2).elapsedHours = 5 - complaintResolved.createdAt := by
  have h := terminal_complaints_never_escalate complaintResolved policyA 2 20 200 rfl
  exact ⟨rfl, h.1, (h.2.2.2.2 5 rfl).1, (h.2.2.2.2 5 rfl).2⟩

/-- Modelled from the spec: an append-only Escalation record (section 3):
complaint reference, previous officer, new officer, reason text, creation
timestamp. -/
structure Escalation where
  complaintId : Nat
  fromOfficer : Option Nat
  toOfficer : Nat
  reason : String
  createdAt : ℚ
deriving DecidableEq, Repr

/-- Modelled from the spec: the shared mutable state the engine reads and
writes — the complaint store, the officer directory and the append-only
escalation store. -/
structure Store where
  complaints : List Complaint
  officers : List Officer
  escalations : List Escalation
deriving DecidableEq, Repr

/-- The officer currently responsible for a complaint, by id. -/
def officerRef (c : Complaint) : Option Nat := c.currentOfficer.map Officer.id

/-- Modelled from the spec: an officer's active load — the count of
currently non-terminal complaints assigned to that officer. -/
def activeLoad (cs : List Complaint) (oid : Nat) : Nat :=
  (cs.filter (fun c => officerRef c == some oid && !c.status.isTerminal)).length

/-- Modelled from the spec: the candidate set — all officers of the given
department excluding the given (current) officer. -/
def candidateFilter (os : List Officer) (deptId : Nat) (excl : Option Nat) :
    List Officer :=
  os.filter (fun o => o.departmentId == deptId && !(excl == some o.id))

/-- Modelled from the spec: the selector's ranking order — ascending active
load, exact ties broken by officer identifier ascending. -/
def candLE (cs : List Complaint) (a b : Officer) : Prop :=
  activeLoad cs a.id < activeLoad cs b.id
  ∨ (activeLoad cs a.id = activeLoad cs b.id ∧ a.id ≤ b.id)

instance candLE.instDecidableRel (cs : List Complaint) :
    DecidableRel (candLE cs) := fun a b => by
  unfold candLE
  infer_instance

instance candLE.instIsTotal (cs : List Complaint) :
    IsTotal Officer (candLE cs) := by
  constructor
  intro a b
  unfold candLE
  omega

instance candLE.instIsTrans (cs : List Complaint) :
    IsTrans Officer (candLE cs) := by
  constructor
  intro a b c
  unfold candLE
  omega

theorem candLE.refl (cs : List Complaint) (a : Officer) : candLE cs a a :=
  Or.inr ⟨rfl, Nat.le_refl _⟩

/-- Modelled from the spec: `rankCandidates(departmentId, excludeOfficerId)
-> ordered list` (design note on replacing the ad-hoc senior-officer
query): the candidate set sorted ascending by load with the stable id
tie-break. -/
def rankCandidates (s : Store) (deptId : Nat) (excl : Option Nat) :
    List Officer :=
  List.insertionSort (candLE s.complaints) (candidateFilter s.officers deptId excl)

/-- Modelled from the spec: selector failure (section 4.4). -/
inductive SelectorError
  | noEligibleTarget
deriving DecidableEq, Repr

/-- Modelled from the spec: `selectTarget(complaint) -> OfficerId` — the
first officer of the ranked candidate list, `NoEligibleTarget` when the
candidate set is empty. -/
def selectTarget (s : Store) (c : Complaint) : Except SelectorError Officer :=
  match (rankCandidates s c.departmentId (officerRef c)).head? with
  | some o => .ok o
  | none => .error .noEligibleTarget

/-- Modelled from the spec: the Responsible-Party Resolver's result
(section 4.3). -/
structure ResponsibleDescription where
  workerId : Option Nat
  officerId : Option Nat
  displayText : String
deriving DecidableEq, Repr

/-- Modelled from the spec: `resolve(complaint)` — describes who currently
holds the complaint; never fails, producing the placeholder "Unassigned"
when neither a worker nor an officer is assigned. -/
def resolve (c : Complaint) : ResponsibleDescription :=
  match c.currentWorker, c.currentOfficer with
  | some w, some o =>
    { workerId := some w.id, officerId := some o.id
      displayText := "worker: " ++ w.name ++ ", supervised by officer: " ++ o.name }
  | some w, none =>
    { workerId := some w.id, officerId := none
      displayText := "worker: " ++ w.name }
  | none, some o =>
    { workerId := none, officerId := some o.id
      displayText := "officer: " ++ o.name }
  | none, none =>
    { workerId := none, officerId := none, displayText := "Unassigned" }

/-- `sub` occurs literally (as a contiguous substring) in `s`. -/
def strContains (s sub : String) : Prop :=
  ∃ pre post : String, s = pre ++ sub ++ post

theorem strContains_intro (pre post sub : String) :
    strContains (pre ++ sub ++ post) sub :=
  ⟨pre, post, rfl⟩

theorem strAppend_assoc (a b c : String) : a ++ b ++ c = a ++ (b ++ c) := by
  apply String.ext
  simp

/-- Modelled from the spec: the reason text of a generated Escalation — it
must include the previously responsible worker's and/or officer's display
identity (section 4.5), per the documented
`"Auto-escalation: SLA breach. Previously assigned to ..."` format. -/
def escalationReason (c : Complaint) : String :=
  "Auto-escalation: SLA breach. Previously assigned to "
    ++ (resolve c).displayText ++ "."

/-- Modelled from the spec: the Escalation Recorder's single atomic update
(section 4.5): create the Escalation record naming the previously
responsible party, set status to the reassignment-pending state, assign the
target officer, raise priority one level capped at CRITICAL, increment the
escalation count, update the last-escalated timestamp. -/
def recordEscalation (c : Complaint) (target : Officer) (now : ℚ) :
    Complaint × Escalation :=
  ({ c with
      status := .pendingReassignment
      currentOfficer := some target
      priority := bumpPriority c.priority
      escalationCount := c.escalationCount + 1
      lastEscalatedAt := some now },
   { complaintId := c.id
     fromOfficer := officerRef c
     toOfficer := target.id
     reason := escalationReason c
     createdAt := now })

theorem head?_mem {α : Type} {l : List α} {a : α} (h : l.head? = some a) :
    a ∈ l := by
  cases l with
  | nil => simp at h
  | cons x t =>
    simp only [List.head?_cons, Option.some.injEq] at h
    rw [← h]
    exact List.mem_cons_self x t

/-- Everything the head of the ranked candidate list is related to. -/
theorem selectTarget_ok_spec (s : Store) (c : Complaint) (o : Officer)
    (h : selectTarget s c = .ok o) :
    o ∈ candidateFilter s.officers c.departmentId (officerRef c)
    ∧ ∀ o' ∈ candidateFilter s.officers c.departmentId (officerRef c),
        candLE s.complaints o o' := by
  unfold selectTarget at h
  cases hh : (rankCandidates s c.departmentId (officerRef c)).head? with
  | none => rw [hh] at h; exact absurd h (by simp)
  | some o'' =>
    rw [hh] at h
    simp only [Except.ok.injEq] at h
    subst h
    have hperm := List.perm_insertionSort (candLE s.complaints)
      (candidateFilter s.officers c.departmentId (officerRef c))
    have hsorted := List.sorted_insertionSort (candLE s.complaints)
      (candidateFilter s.officers c.departmentId (officerRef c))
    constructor
    · exact hperm.subset (head?_mem hh)
    · intro o' ho'
      have ho'rank : o' ∈ rankCandidates s c.departmentId (officerRef c) :=
        (hperm.mem_iff).mpr ho'
      revert hh hsorted ho'rank
      unfold rankCandidates
      cases List.insertionSort (candLE s.complaints)
        (candidateFilter s.officers c.departmentId (officerRef c)) with
      | nil => intro hh; simp at hh
      | cons x t =>
        intro hh hsorted ho'rank
        simp only [List.head?_cons, Option.some.injEq] at hh
        subst hh
        rcases List.mem_cons.mp ho'rank with h1 | h1
        · subst h1
          exact candLE.refl s.complaints o'
        · exact List.rel_of_sorted_cons hsorted o' h1

theorem candLE_load_le {cs : List Complaint} {a b : Officer}
    (h : candLE cs a b) : activeLoad cs a.id ≤ activeLoad cs b.id := by
  rcases h with h | ⟨h, _⟩
  · exact Nat.le_of_lt h
  · exact Nat.le_of_eq h

/-- C4: for an OVERDUE complaint, the selector's candidate set is exactly
the officers of the complaint's department minus the currently responsible
officer, the ranking is ascending in each candidate's count of currently
non-terminal assigned complaints, and the selected officer is a
least-loaded candidate. -/
theorem overdue_target_selection (s : Store) (c : Complaint) (o : Officer)
    (h : selectTarget s c = .ok o) :
    candidateFilter s.officers c.departmentId (officerRef c)
      = s.officers.filter
          (fun o' => o'.departmentId == c.departmentId
            && !(officerRef c == some o'.id))
    ∧ (rankCandidates s c.departmentId (officerRef c)).Perm
        (candidateFilter s.officers c.departmentId (officerRef c))
    ∧ (rankCandidates s c.departmentId (officerRef c)).Pairwise
        (fun a b => activeLoad s.complaints a.id ≤ activeLoad s.complaints b.id)
    ∧ o ∈ candidateFilter s.officers c.departmentId (officerRef c)
    ∧ ∀ o' ∈ candidateFilter s.officers c.departmentId (officerRef c),
        activeLoad s.complaints o.id ≤ activeLoad s.complaints o'.id := by
  obtain ⟨hmem, hmin⟩ := selectTarget_ok_spec s c o h
  refine ⟨rfl, List.perm_insertionSort _ _, ?_, hmem, ?_⟩
  · exact (List.sorted_insertionSort (candLE s.complaints) _).imp candLE_load_le
  · intro o' ho'
    exact candLE_load_le (hmin o' ho')

/-- Witness data for the selector claims: department 1 has officers 10
(currently responsible), 11 and 12; officer 11 carries one active
complaint, officer 12 none. -/
def officer10 : Officer := { id := 10, name := "Sharma", departmentId := 1 }

def officer11 : Officer := { id := 11, name := "Verma", departmentId := 1 }

def officer12 : Officer := { id := 12, name := "Gupta", departmentId := 1 }

def complaintOverdue : Complaint :=
  { id := 3, category := 0, departmentId := 1, status := .inProgress
    priority := .normal, createdAt := 0, terminalAt := none
    currentWorker := some { id := 7, name := "John" }
    currentOfficer := some officer10, escalationCount := 0
    lastWarnedAt := none, lastEscalatedAt := none }

def complaintLoad11 : Complaint :=
  { id := 4, category := 0, departmentId := 1, status := .assigned
    priority := .normal, createdAt := 1, terminalAt := none
    currentWorker := none, currentOfficer := some officer11
    escalationCount := 0, lastWarnedAt := none, lastEscalatedAt := none }

def storeSel : Store :=
  { complaints := [complaintOverdue, complaintLoad11]
    officers := [officer10, officer11, officer12]
    escalations := [] }

theorem overdue_target_selection_witness :
    selectTarget storeSel complaintOverdue = .ok officer12
    ∧ officer12 ∈ candidateFilter storeSel.officers
        complaintOverdue.departmentId (officerRef complaintOverdue)
    ∧ activeLoad storeSel.complaints officer12.id
        ≤ activeLoad storeSel.complaints officer11.id := by
  have h := overdue_target_selection storeSel complaintOverdue officer12 rfl
  exact ⟨rfl, h.2.2.2.1, h.2.2.2.2 officer11 (by decide)⟩

/-- C5: target selection is a deterministic function of its input — on
identical input the same officer comes back — and an exact tie in active
load is broken by officer identifier ascending: the selected officer's id
is least among equally loaded candidates. -/
theorem target_selection_deterministic (s : Store) (c : Complaint)
    (o : Officer) (h : selectTarget s c = .ok o) :
    (∀ s' c', s' = s → c' = c → selectTarget s' c' = .ok o)
    ∧ ∀ o' ∈ candidateFilter s.officers c.departmentId (officerRef c),
        activeLoad s.complaints o'.id = activeLoad s.complaints o.id →
          o.id ≤ o'.id := by
  obtain ⟨_, hmin⟩ := selectTarget_ok_spec s c o h
  constructor
  · intro s' c' hs hc
    rw [hs, hc]
    exact h
  · intro o' ho' hload
    rcases hmin o' ho' with h1 | ⟨_, h1⟩
    · omega
    · exact h1

/-- Witness data for the tie-break: officers 11 and 12 both idle; the
selector picks the smaller id, 11. -/
def complaintTie : Complaint :=
  { id := 5, category := 0, departmentId := 1, status := .inProgress
    priority := .normal, createdAt := 0, terminalAt := none
    currentWorker := none, currentOfficer := some officer10
    escalationCount := 0, lastWarnedAt := none, lastEscalatedAt := none }

def storeTie : Store :=
  { complaints := [complaintTie]
    officers := [officer10, officer12, officer11]
    escalations := [] }

theorem target_selection_deterministic_witness :
    selectTarget storeTie complaintTie = .ok officer11
    ∧ officer11.id ≤ officer12.id := by
  have h := target_selection_deterministic storeTie complaintTie officer11 rfl
  exact ⟨h.1 storeTie complaintTie rfl rfl, h.2 officer12 (by decide) (by decide)⟩

theorem strContains_of_append_left (a b sub : String)
    (h : strContains a sub) : strContains (a ++ b) sub := by
  obtain ⟨pre, post, hp⟩ := h
  refine ⟨pre, post ++ b, ?_⟩
  rw [hp, strAppend_assoc (pre ++ sub) post b]

theorem strContains_of_append_right (a b sub : String)
    (h : strContains b sub) : strContains (a ++ b) sub := by
  obtain ⟨pre, post, hp⟩ := h
  refine ⟨a ++ pre, post, ?_⟩
  rw [hp]
  apply String.ext
  simp

theorem strContains_append_self (pre : String) (sub : String) :
    strContains (pre ++ sub) sub := by
  refine ⟨pre, "", ?_⟩
  apply String.ext
  simp

/-- C8: the reason of every recorded Escalation literally contains the
display name of the previously assigned worker when one existed; and when
neither a worker nor an officer is assigned, the Resolver/Recorder pipeline
still produces the record, with the "Unassigned" placeholder in the reason
instead of an error. -/
theorem escalation_reason_names_responsible (c : Complaint) (target : Officer)
    (now : ℚ) :
    (∀ w, c.currentWorker = some w →
      strContains ((recordEscalation c target now).2.reason) w.name)
    ∧ (c.currentWorker = none → c.currentOfficer = none →
        (resolve c).displayText = "Unassigned"
        ∧ strContains ((recordEscalation c target now).2.reason) ("Unassigned")) := by
  have hreason : (recordEscalation c target now).2.reason = escalationReason c := rfl
  constructor
  · intro w hw
    rw [hreason]
    unfold escalationReason
    apply strContains_of_append_left
    apply strContains_of_append_right
    unfold resolve
    rw [hw]
    cases ho : c.currentOfficer with
    | some o =>
      dsimp only
      apply strContains_of_append_left
      apply strContains_of_append_left
      exact strContains_append_self _ w.name
    | none =>
      dsimp only
      exact strContains_append_self _ w.name
  · intro hw ho
    have hdt : (resolve c).displayText = "Unassigned" := by
      unfold resolve
      rw [hw, ho]
    refine ⟨hdt, ?_⟩
    rw [hreason]
    unfold escalationReason
    rw [hdt]
    exact strContains_intro _ _ _

/-- Witness for C8: the overdue complaint assigned to worker John — the
recorded reason names John — and an unassigned complaint — the recorded
reason carries the "Unassigned" placeholder. -/
def complaintUnassigned : Complaint :=
  { id := 6, category := 0, departmentId := 1, status := .submitted
    priority := .normal, createdAt := 0, terminalAt := none
    currentWorker := none, currentOfficer := none
    escalationCount := 0, lastWarnedAt := none, lastEscalatedAt := none }

theorem escalation_reason_names_responsible_witness :
    strContains ((recordEscalation complaintOverdue officer12 13).2.reason) ("John")
    ∧ strContains ((recordEscalation complaintUnassigned officer12 13).2.reason)
        ("Unassigned") :=
  ⟨(escalation_reason_names_responsible complaintOverdue officer12 13).1
      { id := 7, name := "John" } rfl,
   ((escalation_reason_names_responsible complaintUnassigned officer12 13).2
      rfl rfl).2⟩

/-- Modelled from the spec: notification events dispatched by the engine
(section 4.6): four recipients for an escalation, worker and officer for a
warning. -/
inductive Notification
  | escalationToTarget (complaintId targetOfficerId : Nat)
  | escalationToCitizen (complaintId : Nat)
  | escalationToWorker (complaintId workerId : Nat)
  | escalationToPrevOfficer (complaintId officerId : Nat)
  | slaWarningToWorker (complaintId workerId : Nat)
  | slaWarningToOfficer (complaintId officerId : Nat)
deriving DecidableEq, Repr

/-- Modelled from the spec: logged skip/abort events (section 7). -/
inductive LogEvent
  | skippedNoPolicy (complaintId : Nat)
  | noTargetAvailable (complaintId : Nat)
deriving DecidableEq, Repr

/-- Modelled from the spec: warning recipients are the current worker and
the current officer only. -/
def warnNotifs (c : Complaint) : List Notification :=
  (match c.currentWorker with
    | some w => [.slaWarningToWorker c.id w.id]
    | none => []) ++
  (match c.currentOfficer with
    | some o => [.slaWarningToOfficer c.id o.id]
    | none => [])

/-- Modelled from the spec: escalation recipients — target officer,
original complainant, previously responsible worker, previous officer. -/
def escNotifs (c : Complaint) (target : Officer) : List Notification :=
  [.escalationToTarget c.id target.id, .escalationToCitizen c.id] ++
  (match c.currentWorker with
    | some w => [.escalationToWorker c.id w.id]
    | none => []) ++
  (match c.currentOfficer with
    | some o => [.escalationToPrevOfficer c.id o.id]
    | none => [])

/-- The instant the complaint enters the warning threshold. -/
def warningStartTime (c : Complaint) (p : SLAPolicy) (thr : ℚ) : ℚ :=
  c.createdAt + p.escalationHours - thr

/-- Modelled from the spec: a warning has already been sent since the
complaint last entered the threshold, tracked via the last-warned
timestamp. -/
def warnedInWindow (c : Complaint) (p : SLAPolicy) (thr : ℚ) : Bool :=
  match c.lastWarnedAt with
  | some t => decide (warningStartTime c p thr ≤ t)
  | none => false

/-- Modelled from the spec: the complaint was already escalated inside the
current escalation window, detectable via the last-escalated timestamp
being within the current escalation-hours window. -/
def escalatedInWindow (c : Complaint) (now : ℚ) (p : SLAPolicy) : Bool :=
  match c.lastEscalatedAt with
  | some t => decide (now - t < p.escalationHours)
  | none => false

/-- What one driver step over one complaint produced. -/
structure StepResult where
  complaint : Complaint
  newEscalations : List Escalation
  notifications : List Notification
  events : List LogEvent
deriving DecidableEq, Repr

/-- Modelled from the spec: the Driver's handling of a single complaint
(section 4.7).  No policy → skip and log; TERMINAL and ON_TRACK → no
action; WARNING band → dispatch the warning once, recording the last-warned
timestamp; OVERDUE and not already escalated in the window → Resolver →
Selector → Recorder → Dispatcher, or, with no eligible target, raise
priority to CRITICAL and log with no Escalation record. -/
def processComplaint (reg : Nat → Option SLAPolicy) (thr now : ℚ)
    (s : Store) (c : Complaint) : StepResult :=
  match reg c.category with
  | none => ⟨c, [], [], [.skippedNoPolicy c.id]⟩
  | some p =>
    match (evaluate c now p thr).state with
    | .terminal => ⟨c, [], [], []⟩
    | .onTrack => ⟨c, [], [], []⟩
    | .warning =>
      if warnedInWindow c p thr then ⟨c, [], [], []⟩
      else ⟨{ c with lastWarnedAt := some now }, [], warnNotifs c, []⟩
    | .overdue =>
      if escalatedInWindow c now p then ⟨c, [], [], []⟩
      else
        match selectTarget s c with
        | .error _ =>
          ⟨{ c with priority := .critical }, [], [], [.noTargetAvailable c.id]⟩
        | .ok target =>
          ⟨(recordEscalation c target now).1, [(recordEscalation c target now).2],
            escNotifs c target, []⟩

/-- Result of one full driver pass. -/
structure PassResult where
  store : Store
  notifications : List Notification
  events : List LogEvent
deriving DecidableEq, Repr

/-- Modelled from the spec: one Driver invocation — one pass over all
complaints of the store, each evaluated against the snapshot taken at the
start of the pass; escalation records append to the escalation store. -/
def runPass (reg : Nat → Option SLAPolicy) (thr now : ℚ) (s : Store) :
    PassResult :=
  { store :=
      { complaints :=
          (s.complaints.map (processComplaint reg thr now s)).map
            StepResult.complaint
        officers := s.officers
        escalations := s.escalations ++
          ((s.complaints.map (processComplaint reg thr now s)).map
            StepResult.newEscalations).flatten }
    notifications :=
      ((s.complaints.map (processComplaint reg thr now s)).map
        StepResult.notifications).flatten
    events :=
      ((s.complaints.map (processComplaint reg thr now s)).map
        StepResult.events).flatten }

theorem evaluate_warning_facts (c : Complaint) (p : SLAPolicy) (thr now : ℚ)
    (h : (evaluate c now p thr).state = .warning) :
    c.status.isTerminal = false
    ∧ now - c.createdAt < p.escalationHours
    ∧ p.escalationHours - (now - c.createdAt) ≤ thr := by
  by_cases ht : c.status.isTerminal
  · rw [evaluate_terminal c p thr now ht] at h
    exact absurd h (by simp)
  · have ht' : c.status.isTerminal = false := by simpa using ht
    obtain ⟨hpos, hle⟩ := ((evaluate_classify c p thr now ht').2.2.1).mp h
    exact ⟨ht', by linarith, hle⟩

theorem evaluate_overdue_facts (c : Complaint) (p : SLAPolicy) (thr now : ℚ)
    (h : (evaluate c now p thr).state = .overdue) :
    c.status.isTerminal = false
    ∧ p.escalationHours ≤ now - c.createdAt := by
  by_cases ht : c.status.isTerminal
  · rw [evaluate_terminal c p thr now ht] at h
    exact absurd h (by simp)
  · have ht' : c.status.isTerminal = false := by simpa using ht
    exact ⟨ht', ((evaluate_classify c p thr now ht').2.1).mp h⟩

theorem selectTarget_error_iff (s : Store) (c : Complaint) :
    selectTarget s c = .error .noEligibleTarget ↔
      candidateFilter s.officers c.departmentId (officerRef c) = [] := by
  have hperm := List.perm_insertionSort (candLE s.complaints)
    (candidateFilter s.officers c.departmentId (officerRef c))
  constructor
  · intro h
    unfold selectTarget rankCandidates at h
    cases hs : List.insertionSort (candLE s.complaints)
        (candidateFilter s.officers c.departmentId (officerRef c)) with
    | nil =>
      rw [hs] at hperm
      exact (List.Perm.nil_eq hperm).symm
    | cons x t =>
      rw [hs] at h
      simp at h
  · intro h
    unfold selectTarget rankCandidates
    rw [h]
    rfl

/-- C6: for a complaint confirmed OVERDUE and eligible, the Recorder's
single update creates exactly one Escalation whose reason includes the
previously responsible party's display identity, moves the status to the
reassignment-pending state, assigns the selected target officer, raises
priority one level capped at CRITICAL (CRITICAL stays CRITICAL and the
priority type has only the three values), and increments the escalation
count by one. -/
theorem recorder_single_update (reg : Nat → Option SLAPolicy) (thr now : ℚ)
    (s : Store) (c : Complaint) (p : SLAPolicy) (target : Officer)
    (hreg : reg c.category = some p)
    (hov : (evaluate c now p thr).state = .overdue)
    (hwin : escalatedInWindow c now p = false)
    (hsel : selectTarget s c = .ok target) :
    (processComplaint reg thr now s c).newEscalations
      = [(recordEscalation c target now).2]
    ∧ strContains (recordEscalation c target now).2.reason
        (resolve c).displayText
    ∧ (processComplaint reg thr now s c).complaint.status = .pendingReassignment
    ∧ (processComplaint reg thr now s c).complaint.currentOfficer = some target
    ∧ (processComplaint reg thr now s c).complaint.priority
        = bumpPriority c.priority
    ∧ bumpPriority .critical = .critical
    ∧ (processComplaint reg thr now s c).complaint.escalationCount
        = c.escalationCount + 1 := by
  simp only [processComplaint, hreg, hov, hwin, hsel]
  dsimp only [recordEscalation]
  exact ⟨rfl, strContains_intro _ _ _, rfl, rfl, rfl, rfl, rfl⟩

/-- Witness for C6, Scenario A shaped: the overdue complaint (created at 0,
evaluated at hour 13 against the 12-hour policy) is escalated to officer
12; one Escalation record, pending-reassignment status, bumped priority,
count 1. -/
theorem recorder_single_update_witness :
    (processComplaint (fun _ => some policyA) 2 13 storeSel complaintOverdue).newEscalations
      = [(recordEscalation complaintOverdue officer12 13).2]
    ∧ (processComplaint (fun _ => some policyA) 2 13 storeSel complaintOverdue).complaint.status
      = .pendingReassignment
    ∧ (processComplaint (fun _ => some policyA) 2 13 storeSel complaintOverdue).complaint.priority
      = bumpPriority complaintOverdue.priority
    ∧ (processComplaint (fun _ => some policyA) 2 13 storeSel complaintOverdue).complaint.escalationCount
      = complaintOverdue.escalationCount + 1 := by
  have h := recorder_single_update (fun _ => some policyA) 2 13 storeSel
    complaintOverdue policyA officer12 rfl
    (by norm_num [evaluate, complaintOverdue, policyA, Status.isTerminal])
    rfl rfl
  exact ⟨h.1, h.2.2.1, h.2.2.2.2.1, h.2.2.2.2.2.2⟩

/-- C9: for an OVERDUE complaint whose candidate set is empty, target
selection fails with NoEligibleTarget, the complaint's priority is raised
to CRITICAL, a no-target event is logged, and no Escalation record is
created in that pass. -/
theorem no_eligible_target_handling (reg : Nat → Option SLAPolicy)
    (thr now : ℚ) (s : Store) (c : Complaint) (p : SLAPolicy)
    (hreg : reg c.category = some p)
    (hov : (evaluate c now p thr).state = .overdue)
    (hwin : escalatedInWindow c now p = false)
    (hempty : candidateFilter s.officers c.departmentId (officerRef c) = []) :
    selectTarget s c = .error .noEligibleTarget
    ∧ (processComplaint reg thr now s c).newEscalations = []
    ∧ (processComplaint reg thr now s c).complaint.priority = .critical
    ∧ (processComplaint reg thr now s c).events = [.noTargetAvailable c.id] := by
  have hsel := (selectTarget_error_iff s c).mpr hempty
  refine ⟨hsel, ?_⟩
  simp only [processComplaint, hreg, hov, hwin, hsel]
  exact ⟨rfl, rfl, rfl⟩

/-- Witness for C9: an overdue complaint in a department whose only officer
is the current one — the candidate set is empty, priority goes CRITICAL,
the event is logged, no Escalation appears. -/
def storeLonely : Store :=
  { complaints := [complaintOverdue]
    officers := [officer10]
    escalations := [] }

theorem no_eligible_target_handling_witness :
    selectTarget storeLonely complaintOverdue = .error .noEligibleTarget
    ∧ (processComplaint (fun _ => some policyA) 2 13 storeLonely complaintOverdue).newEscalations = []
    ∧ (processComplaint (fun _ => some policyA) 2 13 storeLonely complaintOverdue).complaint.priority
      = .critical
    ∧ (processComplaint (fun _ => some policyA) 2 13 storeLonely complaintOverdue).events
      = [.noTargetAvailable complaintOverdue.id] := by
  exact no_eligible_target_handling (fun _ => some policyA) 2 13 storeLonely
    complaintOverdue policyA rfl
    (by norm_num [evaluate, complaintOverdue, policyA, Status.isTerminal])
    rfl (by decide)

/-- C7: in the WARNING band the Driver dispatches at most one warning per
threshold crossing — the first pass sends the warning and records the
last-warned timestamp; any later pass over the same complaint still inside
the same warning window sends nothing and creates nothing. -/
theorem warning_sent_once (reg : Nat → Option SLAPolicy) (thr now now' : ℚ)
    (s sLater : Store) (c : Complaint) (p : SLAPolicy)
    (hreg : reg c.category = some p)
    (hw : (evaluate c now p thr).state = .warning)
    (hnw : warnedInWindow c p thr = false) :
    (processComplaint reg thr now s c).complaint.lastWarnedAt = some now
    ∧ (processComplaint reg thr now s c).notifications = warnNotifs c
    ∧ ((evaluate ((processComplaint reg thr now s c).complaint) now' p thr).state
          = .warning →
        (processComplaint reg thr now' sLater
            ((processComplaint reg thr now s c).complaint)).notifications = []
        ∧ (processComplaint reg thr now' sLater
            ((processComplaint reg thr now s c).complaint)).newEscalations = []) := by
  obtain ⟨hterm, hlt, hle⟩ := evaluate_warning_facts c p thr now hw
  have hstep : processComplaint reg thr now s c
      = ⟨{ c with lastWarnedAt := some now }, [], warnNotifs c, []⟩ := by
    simp only [processComplaint, hreg, hw, hnw]
    rfl
  rw [hstep]
  refine ⟨rfl, rfl, ?_⟩
  intro hw'
  have hwarned : warnedInWindow { c with lastWarnedAt := some now } p thr = true := by
    unfold warnedInWindow warningStartTime
    dsimp only
    rw [decide_eq_true_eq]
    linarith
  have hreg' : reg ({ c with lastWarnedAt := some now } : Complaint).category = some p := hreg
  simp only [processComplaint, hreg', hw', hwarned]
  exact ⟨rfl, rfl⟩

/-- Witness for C7, Scenario B shaped: complaint created at 0, 12-hour
escalation, 2-hour threshold, first pass at hour 10 warns the worker and
officer; a second pass at hour 11 (still in the warning window) sends
nothing. -/
def complaintWarn : Complaint :=
  { id := 8, category := 0, departmentId := 1, status := .inProgress
    priority := .normal, createdAt := 0, terminalAt := none
    currentWorker := some { id := 7, name := "John" }
    currentOfficer := some officer10, escalationCount := 0
    lastWarnedAt := none, lastEscalatedAt := none }

theorem warning_sent_once_witness :
    (processComplaint (fun _ => some policyA) 2 10 storeSel complaintWarn).complaint.lastWarnedAt
      = some 10
    ∧ (processComplaint (fun _ => some policyA) 2 10 storeSel complaintWarn).notifications
      = warnNotifs complaintWarn
    ∧ (processComplaint (fun _ => some policyA) 2 11 storeSel
        ((processComplaint (fun _ => some policyA) 2 10 storeSel complaintWarn).complaint)).notifications
      = [] := by
  have h := warning_sent_once (fun _ => some policyA) 2 10 11 storeSel storeSel
    complaintWarn policyA rfl
    (by norm_num [evaluate, complaintWarn, policyA, Status.isTerminal])
    rfl
  refine ⟨h.1, h.2.1, ?_⟩
  refine (h.2.2 ?_).1
  have hc : (processComplaint (fun _ => some policyA) 2 10 storeSel complaintWarn).complaint
      = { complaintWarn with lastWarnedAt := some 10 } := by
    have he : (evaluate complaintWarn 10 policyA 2).state = .warning := by
      norm_num [evaluate, complaintWarn, policyA, Status.isTerminal]
    have hnw2 : warnedInWindow complaintWarn policyA 2 = false := rfl
    simp only [processComplaint, he, hnw2]
    rfl
  rw [hc]
  norm_num [evaluate, complaintWarn, policyA, Status.isTerminal]

/-- Re-processing any complaint right after the pass that already processed
it (same clock, any store with the same officer directory) creates no
Escalation record and leaves the escalation count unchanged. -/
theorem process_second_pass_noop (reg : Nat → Option SLAPolicy) (thr now : ℚ)
    (s sNext : Store) (c : Complaint)
    (hoff : sNext.officers = s.officers)
    (hpos : ∀ p, reg c.category = some p → 0 < p.escalationHours) :
    (processComplaint reg thr now sNext
        ((processComplaint reg thr now s c).complaint)).newEscalations = []
    ∧ (processComplaint reg thr now sNext
        ((processComplaint reg thr now s c).complaint)).complaint.escalationCount
      = ((processComplaint reg thr now s c).complaint).escalationCount := by
  cases hr : reg c.category with
  | none =>
    have hstep : processComplaint reg thr now s c
        = ⟨c, [], [], [.skippedNoPolicy c.id]⟩ := by
      simp only [processComplaint, hr]
    rw [hstep]
    simp only [processComplaint, hr]
    exact ⟨by trivial, by trivial⟩
  | some p =>
    have hp := hpos p hr
    cases hs : (evaluate c now p thr).state with
    | terminal =>
      have hstep : processComplaint reg thr now s c = ⟨c, [], [], []⟩ := by
        simp only [processComplaint, hr, hs]
      rw [hstep]
      simp only [processComplaint, hr, hs]
      exact ⟨by trivial, by trivial⟩
    | onTrack =>
      have hstep : processComplaint reg thr now s c = ⟨c, [], [], []⟩ := by
        simp only [processComplaint, hr, hs]
      rw [hstep]
      simp only [processComplaint, hr, hs]
      exact ⟨by trivial, by trivial⟩
    | warning =>
      cases hw : warnedInWindow c p thr with
      | true =>
        have hstep : processComplaint reg thr now s c = ⟨c, [], [], []⟩ := by
          simp only [processComplaint, hr, hs, hw]
          rfl
        rw [hstep]
        simp only [processComplaint, hr, hs, hw]
        exact ⟨by trivial, by trivial⟩
      | false =>
        have hstep : processComplaint reg thr now s c
            = ⟨{ c with lastWarnedAt := some now }, [], warnNotifs c, []⟩ := by
          simp only [processComplaint, hr, hs, hw]
          rfl
        rw [hstep]
        have hs' : (evaluate { c with lastWarnedAt := some now } now p thr).state
            = .warning := hs
        have hw' : warnedInWindow { c with lastWarnedAt := some now } p thr
            = true := by
          obtain ⟨_, _, hle⟩ := evaluate_warning_facts c p thr now hs
          unfold warnedInWindow warningStartTime
          dsimp only
          rw [decide_eq_true_eq]
          linarith
        simp only [processComplaint, hr, hs', hw']
        exact ⟨by trivial, by trivial⟩
    | overdue =>
      cases he : escalatedInWindow c now p with
      | true =>
        have hstep : processComplaint reg thr now s c = ⟨c, [], [], []⟩ := by
          simp only [processComplaint, hr, hs, he]
          rfl
        rw [hstep]
        simp only [processComplaint, hr, hs, he]
        exact ⟨by trivial, by trivial⟩
      | false =>
        cases hsel : selectTarget s c with
        | error e =>
          cases e
          have hempty := (selectTarget_error_iff s c).mp hsel
          have hstep : processComplaint reg thr now s c
              = ⟨{ c with priority := .critical }, [], [],
                  [.noTargetAvailable c.id]⟩ := by
            simp only [processComplaint, hr, hs, he, hsel]
            rfl
          rw [hstep]
          have hs' : (evaluate { c with priority := Priority.critical } now p thr).state
              = .overdue := hs
          have he' : escalatedInWindow { c with priority := Priority.critical } now p
              = false := he
          have hsel' : selectTarget sNext { c with priority := Priority.critical }
              = .error .noEligibleTarget := by
            apply (selectTarget_error_iff _ _).mpr
            rw [hoff]
            exact hempty
          simp only [processComplaint, hr, hs', he', hsel']
          exact ⟨by trivial, by trivial⟩
        | ok target =>
          have hstep : processComplaint reg thr now s c
              = ⟨(recordEscalation c target now).1,
                  [(recordEscalation c target now).2], escNotifs c target, []⟩ := by
            simp only [processComplaint, hr, hs, he, hsel]
            rfl
          rw [hstep]
          have hov := (evaluate_overdue_facts c p thr now hs).2
          have hs' : (evaluate (recordEscalation c target now).1 now p thr).state
              = .overdue :=
            ((evaluate_classify (recordEscalation c target now).1 p thr now rfl).2.1).mpr hov
          have he' : escalatedInWindow (recordEscalation c target now).1 now p
              = true := by
            unfold escalatedInWindow recordEscalation
            dsimp only
            rw [decide_eq_true_eq]
            have hz : now - now = 0 := by ring
            rw [hz]
            exact hp
          have hreg' : reg (recordEscalation c target now).1.category = some p := hr
          simp only [processComplaint, hreg', hs', he']
          exact ⟨by trivial, by trivial⟩

theorem flatten_eq_nil_of_forall {α : Type} (L : List (List α))
    (h : ∀ l ∈ L, l = []) : L.flatten = [] := by
  induction L with
  | nil => rfl
  | cons x t ih =>
    simp only [List.flatten_cons]
    rw [h x (List.mem_cons_self x t), ih (fun l hl => h l (List.mem_cons_of_mem x hl))]
    rfl

/-- C2: running one full Driver pass and then immediately a second pass at
the same clock time creates no second Escalation record (the escalation
store is unchanged by the second pass), and the second pass leaves every
complaint's escalation count unchanged. -/
theorem driver_pass_idempotent (reg : Nat → Option SLAPolicy) (thr now : ℚ)
    (s : Store)
    (hpos : ∀ cat p, reg cat = some p → 0 < p.escalationHours) :
    (runPass reg thr now (runPass reg thr now s).store).store.escalations
      = (runPass reg thr now s).store.escalations
    ∧ (runPass reg thr now (runPass reg thr now s).store).store.complaints.map
        Complaint.escalationCount
      = (runPass reg thr now s).store.complaints.map Complaint.escalationCount := by
  have hoff : (runPass reg thr now s).store.officers = s.officers := rfl
  constructor
  · show (runPass reg thr now s).store.escalations ++ _ = _
    have hnil : (((runPass reg thr now s).store.complaints.map
        (processComplaint reg thr now (runPass reg thr now s).store)).map
          StepResult.newEscalations).flatten = [] := by
      apply flatten_eq_nil_of_forall
      intro l hl
      rw [List.map_map] at hl
      obtain ⟨c1, hc1, rfl⟩ := List.mem_map.mp hl
      show (processComplaint reg thr now (runPass reg thr now s).store c1).newEscalations = []
      have : c1 ∈ (s.complaints.map (processComplaint reg thr now s)).map
          StepResult.complaint := hc1
      rw [List.map_map] at this
      obtain ⟨c, hc, rfl⟩ := List.mem_map.mp this
      exact (process_second_pass_noop reg thr now s (runPass reg thr now s).store c
        hoff (fun p hp => hpos c.category p hp)).1
    rw [hnil]
    exact List.append_nil _
  · have h2 : ∀ c1 ∈ (runPass reg thr now s).store.complaints,
        ((processComplaint reg thr now (runPass reg thr now s).store c1).complaint).escalationCount
          = c1.escalationCount := by
      intro c1 hc1
      have hmm : c1 ∈ (s.complaints.map (processComplaint reg thr now s)).map
          StepResult.complaint := hc1
      rw [List.map_map] at hmm
      obtain ⟨c, hc, rfl⟩ := List.mem_map.mp hmm
      exact (process_second_pass_noop reg thr now s (runPass reg thr now s).store c
        hoff (fun p hp => hpos c.category p hp)).2
    show (((runPass reg thr now s).store.complaints.map
        (processComplaint reg thr now (runPass reg thr now s).store)).map
          StepResult.complaint).map Complaint.escalationCount
      = (runPass reg thr now s).store.complaints.map Complaint.escalationCount
    rw [List.map_map, List.map_map]
    apply List.map_congr_left
    intro c1 hc1
    exact h2 c1 hc1

/-- Witness for C2 at a concrete store: one overdue complaint, the 12-hour
policy on every category, the clock at hour 13; the second back-to-back
pass adds no escalation and changes no count. -/
theorem driver_pass_idempotent_witness :
    (runPass (fun _ => some policyA) 2 13
        (runPass (fun _ => some policyA) 2 13 storeSel).store).store.escalations
      = (runPass (fun _ => some policyA) 2 13 storeSel).store.escalations
    ∧ (runPass (fun _ => some policyA) 2 13
        (runPass (fun _ => some policyA) 2 13 storeSel).store).store.complaints.map
          Complaint.escalationCount
      = (runPass (fun _ => some policyA) 2 13 storeSel).store.complaints.map
          Complaint.escalationCount := by
  apply driver_pass_idempotent
  intro cat p hp
  obtain rfl : policyA = p := Option.some.inj hp
  norm_num [policyA]

/-- The `sla_timer` object served to the admin complaint detail page
(`frontend/pages/admin/complaints/[id].js`), as produced by the complaint
serializer: status string, icon, title, numeric priority with display text,
elapsed/overdue/remaining hours, the two deadlines and the escalation
count. -/
structure SlaTimer where
  status : String
  icon : String
  title : String
  priority : Nat
  priority_text : String
  hours_elapsed : ℚ
  is_overdue : Bool
  hours_overdue : ℚ
  hours_remaining : ℚ
  escalation_deadline : ℚ
  resolution_deadline : ℚ
  escalation_count : Nat
deriving DecidableEq, Repr

/-- The timer card's border style, from the status branching at the top of
the SLA Timer Display block of `[id].js`. -/
def timerCardStyle (status : String) : String :=
  if status = "completed" then "timerCompleted"
  else if status = "declined" then "timerDeclined"
  else if status = "pending" then "timerPending"
  else if status = "overdue" then "timerOverdue"
  else if status = "critical" then "timerCritical"
  else if status = "warning" then "timerWarning"
  else "timerOk"

/-- The priority badge colour mapping of `[id].js`: 3 → red, 2 → orange,
otherwise blue. -/
def priorityBadgeColor (priority : Nat) : String :=
  if priority = 3 then "#dc2626"
  else if priority = 2 then "#ea580c"
  else "#3b82f6"

/-- One stat box of the timer card (label and numeric hours value). -/
structure TimerStat where
  label : String
  value : ℚ
deriving DecidableEq, Repr

/-- The timer stat boxes of `[id].js`: hidden entirely for declined
complaints; otherwise the elapsed box (labelled Total Time when completed,
Time Elapsed otherwise), the remaining/overdue box (absent when completed),
the SLA Deadline box and the Resolution Target box. -/
def timerStats (t : SlaTimer) : List TimerStat :=
  if t.status = "declined" then []
  else
    { label := if t.status = "completed" then "Total Time" else "Time Elapsed"
      value := t.hours_elapsed } ::
    ((if t.status ≠ "completed" then
        [{ label := if t.is_overdue then "Overdue By" else "Time Remaining"
           value := if t.is_overdue then t.hours_overdue else t.hours_remaining }]
      else []) ++
      [{ label := "SLA Deadline", value := t.escalation_deadline },
       { label := "Resolution Target", value := t.resolution_deadline }])

/-- What the rendered timer card shows. -/
structure TimerCardView where
  style : String
  icon : String
  title : String
  priorityColor : String
  priorityText : String
  stats : List TimerStat
  showEscalationNote : Bool
deriving DecidableEq, Repr

/-- The `complaint.sla_timer && (...)` guard of `[id].js`: the card is
rendered exactly when the `sla_timer` field is present and non-null. -/
def renderTimerCard : Option SlaTimer → Option TimerCardView
  | none => none
  | some t =>
    some { style := timerCardStyle t.status
           icon := t.icon
           title := t.title
           priorityColor := priorityBadgeColor t.priority
           priorityText := t.priority_text
           stats := timerStats t
           showEscalationNote := decide (t.escalation_count > 0) }

/-- C10: the SLA timer card is rendered iff `sla_timer` is present and
non-null (a complaint without SLA data renders no card and no error); for a
declined timer every stat box is hidden; for a completed timer the elapsed
box is labelled Total Time and no Time Remaining or Overdue By figure
appears. -/
theorem sla_timer_card_display (ot : Option SlaTimer) :
    ((renderTimerCard ot).isSome ↔ ot.isSome)
    ∧ (∀ t v, ot = some t → renderTimerCard ot = some v →
        (t.status = "declined" → v.stats = [])
        ∧ (t.status = "completed" →
            v.stats = [{ label := "Total Time", value := t.hours_elapsed },
                       { label := "SLA Deadline", value := t.escalation_deadline },
                       { label := "Resolution Target", value := t.resolution_deadline }]
            ∧ ∀ st ∈ v.stats,
                st.label ≠ "Time Remaining" ∧ st.label ≠ "Overdue By")) := by
  cases ot with
  | none =>
    refine ⟨by simp [renderTimerCard], ?_⟩
    intro t v h1
    exact absurd h1 (by simp)
  | some t =>
    refine ⟨by simp [renderTimerCard], ?_⟩
    intro t' v h1 h2
    obtain rfl : t' = t := by
      simpa using h1.symm
    have hv : v = { style := timerCardStyle t'.status
                    icon := t'.icon
                    title := t'.title
                    priorityColor := priorityBadgeColor t'.priority
                    priorityText := t'.priority_text
                    stats := timerStats t'
                    showEscalationNote := decide (t'.escalation_count > 0) } := by
      simpa [renderTimerCard] using h2.symm
    subst hv
    constructor
    · intro hd
      dsimp only
      unfold timerStats
      rw [hd]
      simp
    · intro hc
      have hstats : timerStats t'
          = [{ label := "Total Time", value := t'.hours_elapsed },
             { label := "SLA Deadline", value := t'.escalation_deadline },
             { label := "Resolution Target", value := t'.resolution_deadline }] := by
        unfold timerStats
        rw [hc]
        simp
      dsimp only
      rw [hstats]
      refine ⟨rfl, ?_⟩
      intro st hst
      simp only [List.mem_cons, List.not_mem_nil, or_false] at hst
      rcases hst with rfl | rfl | rfl
      · exact ⟨by dsimp only; decide, by dsimp only; decide⟩
      · exact ⟨by dsimp only; decide, by dsimp only; decide⟩
      · exact ⟨by dsimp only; decide, by dsimp only; decide⟩

/-- Witness for C10: no timer object renders no card; a declined timer
renders no stat boxes; a completed timer shows Total Time and nothing
about remaining or overdue hours. -/
def timerDeclined : SlaTimer :=
  { status := "declined", icon := "", title := "Declined", priority := 1
    priority_text := "Normal", hours_elapsed := 4, is_overdue := false
    hours_overdue := 0, hours_remaining := 0, escalation_deadline := 12
    resolution_deadline := 24, escalation_count := 0 }

def timerCompleted : SlaTimer :=
  { status := "completed", icon := "", title := "Completed", priority := 2
    priority_text := "High", hours_elapsed := 9, is_overdue := false
    hours_overdue := 0, hours_remaining := 3, escalation_deadline := 12
    resolution_deadline := 24, escalation_count := 1 }

theorem sla_timer_card_display_witness :
    renderTimerCard none = none
    ∧ (∀ v, renderTimerCard (some timerDeclined) = some v → v.stats = [])
    ∧ (∀ v, renderTimerCard (some timerCompleted) = some v →
        v.stats = [{ label := "Total Time", value := timerCompleted.hours_elapsed },
                   { label := "SLA Deadline", value := timerCompleted.escalation_deadline },
                   { label := "Resolution Target", value := timerCompleted.resolution_deadline }]) := by
  refine ⟨?_, ?_, ?_⟩
  · have h := (sla_timer_card_display none).1
    simpa using h
  · intro v hv
    exact ((sla_timer_card_display (some timerDeclined)).2 timerDeclined v rfl hv).1 rfl
  · intro v hv
    exact (((sla_timer_card_display (some timerCompleted)).2 timerCompleted v rfl hv).2 rfl).1

end CivicSaathi
